import Mathlib

/-!
Shallow embedding of the `bluey` terminal Bluetooth manager
(`src/logic.rs` event loop plus `src/ui.rs` rendering data), over which the
specification's testable properties are settled.

The event loop of `run` in `src/logic.rs` is modelled as a step function on
an explicit state.  External collaborators (the Bluetooth adapter, device
property fetches, pair/connect results, terminal input) are modelled as
payloads of the events fed to the step function, mirroring the exact
fallibility points of the source.  Spawned background tasks are recorded as
handle identifiers so that cancellation (`abort`) and spawning can be
reasoned about.
-/

namespace Bluey

/-- Insertion-ordered association list standing in for `indexmap::IndexMap`
keyed by `bluer::Address` (modelled as `Nat`). -/
abbrev IMap (α : Type) := List (Nat × α)

namespace IMap

/-- Lookup by key, mirroring `IndexMap::get` / `get_mut`. -/
def find {α : Type} : IMap α → Nat → Option α
  | [], _ => none
  | (k', v) :: rest, k => if k' = k then some v else find rest k

/-- Key membership, mirroring `IndexMap::contains_key`. -/
def contains {α : Type} (m : IMap α) (k : Nat) : Bool :=
  (find m k).isSome

/-- `IndexMap::insert`: replace the value in place if the key is present,
otherwise append the new entry at the end. -/
def insert {α : Type} : IMap α → Nat → α → IMap α
  | [], k, v => [(k, v)]
  | (k', v') :: rest, k, v =>
    if k' = k then (k', v) :: rest else (k', v') :: insert rest k v

/-- `IndexMap::shift_remove` (and `HashMap::remove`): drop the entry for the
key, preserving the order of the remaining entries. -/
def remove {α : Type} : IMap α → Nat → IMap α
  | [], _ => []
  | (k', v') :: rest, k =>
    if k' = k then remove rest k else (k', v') :: remove rest k

/-- `Entry::and_modify`: apply `f` to the value at `k` when present,
otherwise leave the map unchanged (no `or_insert` is used in the source). -/
def andModify {α : Type} : IMap α → Nat → (α → α) → IMap α
  | [], _, _ => []
  | (k', v) :: rest, k, f =>
    if k' = k then (k', f v) :: rest else (k', v) :: andModify rest k f

end IMap

/-- `crate::Device` as used by `logic.rs`/`ui.rs`: alias text, connected
flag, and the spinner counter `loading` (the spec's `in_flight_operation`),
`None` while idle. -/
structure Device where
  alias_ : String
  connected : Bool
  loading : Option Nat
deriving DecidableEq, Repr

/-- `crate::Error`: the recoverable error surfaced in the popup. -/
structure Error where
  message : String
  process : String
deriving DecidableEq, Repr

/-- `crate::List` (renamed to avoid clashing with Lean's `List`): which of
the two panes is active.  `Unpaired` is the `#[default]` variant. -/
inductive ListKind where
  | Unpaired
  | Paired
deriving DecidableEq, Repr

/-- `ui::App`: the registry (two insertion-ordered maps), the selection
cursor, and the error slot. -/
structure App where
  selected_list : ListKind
  selected_row : Nat
  unpaired : IMap Device
  paired : IMap Device
  error : Option Error
deriving DecidableEq, Repr

/-- `App::default()`. -/
def initApp : App :=
  { selected_list := ListKind.Unpaired
    selected_row := 0
    unpaired := []
    paired := []
    error := none }

/-- The state owned by the `run` loop in `logic.rs` beyond `App`: the
adapter slot, the scanner task handle, and the spinner task table.  Spawned
task handles are modelled as identifiers drawn from `nextHandle`;
`abortedHandles`, `scannersStarted` and `workersStarted` record the
cancellation and spawning effects of the loop, which the source performs via
`JoinHandle::abort` and `tokio::spawn`. -/
structure LoopState where
  app : App
  adapter : Bool
  adapterEventsHandle : Option Nat
  spinners : IMap Nat
  nextHandle : Nat
  abortedHandles : List Nat
  scannersStarted : List Nat
  workersStarted : List (Nat × String)
deriving DecidableEq, Repr

/-- Initial loop state: `App::default()`, no adapter, no scanner, no
spinners. -/
def initState : LoopState :=
  { app := initApp
    adapter := false
    adapterEventsHandle := none
    spinners := []
    nextHandle := 0
    abortedHandles := []
    scannersStarted := []
    workersStarted := [] }

/-- `bluer::DeviceProperty`, restricted to the variants `logic.rs` matches
on; every other variant is the wildcard `Other`. -/
inductive DeviceProperty where
  | Alias (a : String)
  | Connected (b : Bool)
  | Paired (b : Bool)
  | Other
deriving DecidableEq, Repr

/-- The result of the intake fetches for a discovered address: the fetched
`is_paired`/`is_connected` flags and the alias.  `none` stands for a failure
of any of the fallible steps (`adapter.device`, `is_paired`, `is_connected`,
`events`, `alias`), each of which makes intake `continue` without touching
the registry. -/
structure Fetched where
  paired : Bool
  connected : Bool
  alias_ : String
deriving DecidableEq, Repr

/-- `crossterm::event::KeyCode`, restricted to the keys `logic.rs` matches
on. -/
inductive KeyCode where
  | charQ
  | down
  | up
  | left
  | right
  | charS
  | enter
  | esc
  | other
deriving DecidableEq, Repr

/-- One event resolved by the `select!` in the `run` loop.  External
outcomes ride along as payloads: `addition` carries the intake fetch
results, `adapterFetched` carries the bootstrap error if any, and `key`
carries the outcome of `adapter.device(addr)` for the Enter arm (`none` for
success, `some msg` for a resolution failure with message `msg`). -/
inductive Ev where
  | spinnerTick (addr : Nat)
  | complete (addr : Nat)
  | errorMsg (e : Error)
  | addition (addr : Nat) (fetch : Option Fetched)
  | propertyChanged (addr : Nat) (p : DeviceProperty)
  | adapterFetched (err : Option String)
  | key (code : KeyCode) (resolveErr : Option String)
deriving DecidableEq, Repr

/-- The outcome of one loop iteration: keep looping with a new state
(`next`), `break Ok(())` (`quit`), or return an error from `run` (`fatal`),
which terminates the program. -/
inductive StepResult where
  | next (s : LoopState)
  | quit
  | fatal (msg : String)
deriving DecidableEq, Repr

/-- `app.paired.get_mut(&addr).or_else(|| app.unpaired.get_mut(&addr))`:
read the device record for `addr`, consulting `paired` first. -/
def lookupDevice (a : App) (addr : Nat) : Option Device :=
  (IMap.find a.paired addr).orElse (fun _ => IMap.find a.unpaired addr)

/-- Write through the same `paired`-first resolution used by
`lookupDevice`: modify the record in `paired` when the key is there,
otherwise in `unpaired` (a no-op when absent from both). -/
def updateDevice (a : App) (addr : Nat) (f : Device → Device) : App :=
  if IMap.contains a.paired addr then
    { a with paired := IMap.andModify a.paired addr f }
  else
    { a with unpaired := IMap.andModify a.unpaired addr f }

/-- Number of entries in the active pane's map. -/
def activeLen (a : App) : Nat :=
  match a.selected_list with
  | ListKind.Unpaired => a.unpaired.length
  | ListKind.Paired => a.paired.length

/-- `app.unpaired.as_mut_slice()` / `app.paired.as_mut_slice()` selected by
`app.selected_list`. -/
def activeMap (a : App) : IMap Device :=
  match a.selected_list with
  | ListKind.Unpaired => a.unpaired
  | ListKind.Paired => a.paired

/-- Write the active pane's map back. -/
def setActiveMap (a : App) (m : IMap Device) : App :=
  match a.selected_list with
  | ListKind.Unpaired => { a with unpaired := m }
  | ListKind.Paired => { a with paired := m }

/-- `usize` modulus: `wrapping_add` on the spinner counter wraps at
`2 ^ 64`. -/
def usizeMod : Nat := 18446744073709551616

/-- The `rx_spinner_tick` arm: if the record for `addr` (paired first, then
unpaired) exists and its `loading` is `Some(index)`, replace it with
`index.wrapping_add(1)`; otherwise `continue` with the state unchanged. -/
def tickStep (s : LoopState) (addr : Nat) : LoopState :=
  match lookupDevice s.app addr with
  | some d =>
    match d.loading with
    | some index =>
      let f := fun d => { d with loading := some ((index + 1) % usizeMod) }
      { s with app := updateDevice s.app addr f }
    | none => s
  | none => s

/-- The `rx_complete` arm: if the record for `addr` exists, clear its
`loading` to `None` and remove-and-abort the spinner entry for `addr` if
present; if the record is absent, `continue` (the spinner, if any, is not
removed). -/
def completeStep (s : LoopState) (addr : Nat) : LoopState :=
  match lookupDevice s.app addr with
  | none => s
  | some _ =>
    let app := updateDevice s.app addr (fun d => { d with loading := none })
    let aborted :=
      match IMap.find s.spinners addr with
      | some h => s.abortedHandles ++ [h]
      | none => s.abortedHandles
    { s with
        app := app
        spinners := IMap.remove s.spinners addr
        abortedHandles := aborted }

/-- The `rx_additions` arm (Device Intake): skipped entirely when no adapter
is available or any fetch fails; on success a fresh record with
`loading = None` is inserted into `paired` or `unpaired` per the fetched
paired flag.  Note the source never removes the address from the other
map. -/
def intakeStep (s : LoopState) (addr : Nat) (fetch : Option Fetched) :
    LoopState :=
  if s.adapter then
    match fetch with
    | none => s
    | some f =>
      let device : Device :=
        { alias_ := f.alias_, connected := f.connected, loading := none }
      if f.paired then
        { s with app := { s.app with paired := IMap.insert s.app.paired addr device } }
      else
        { s with app := { s.app with unpaired := IMap.insert s.app.unpaired addr device } }
  else s

/-- The `changes.next()` arm (Property Change Multiplexer).  `Alias` and
`Connected` use `app.paired.entry(addr).and_modify(..)` — the `paired` map
only.  `Paired(b)` moves the record between the maps via
`shift_remove`/`insert`, dropping the event when the source map lacks the
address. -/
def propStep (s : LoopState) (addr : Nat) (p : DeviceProperty) : LoopState :=
  match p with
  | DeviceProperty.Alias a =>
    { s with app := { s.app with
        paired := IMap.andModify s.app.paired addr (fun d => { d with alias_ := a }) } }
  | DeviceProperty.Connected c =>
    { s with app := { s.app with
        paired := IMap.andModify s.app.paired addr (fun d => { d with connected := c }) } }
  | DeviceProperty.Paired b =>
    if b then
      match IMap.find s.app.unpaired addr with
      | none => s
      | some device =>
        { s with app := { s.app with
            unpaired := IMap.remove s.app.unpaired addr
            paired := IMap.insert s.app.paired addr device } }
    else
      match IMap.find s.app.paired addr with
      | none => s
      | some device =>
        { s with app := { s.app with
            paired := IMap.remove s.app.paired addr
            unpaired := IMap.insert s.app.unpaired addr device } }
  | DeviceProperty.Other => s

/-- The `rx_adapter` arm: a bootstrap failure propagates out of `run` via
`?` (fatal); on success a scanner task is spawned and the adapter slot is
filled. -/
def adapterStep (s : LoopState) (err : Option String) : StepResult :=
  match err with
  | some msg => StepResult.fatal msg
  | none =>
    StepResult.next { s with
      adapter := true
      adapterEventsHandle := some s.nextHandle
      scannersStarted := s.scannersStarted ++ [s.nextHandle]
      nextHandle := s.nextHandle + 1 }

/-- The terminal-key arm of the loop, mirroring the `match event.code` in
`logic.rs` (error-gating first, then quit, navigation, rescan, activate,
dismiss). -/
def keyStep (s : LoopState) (code : KeyCode) (resolveErr : Option String) :
    StepResult :=
  if s.app.error.isSome then
    if code = KeyCode.esc then
      StepResult.next { s with app := { s.app with error := none } }
    else
      StepResult.next s
  else
    match code with
    | KeyCode.charQ => StepResult.quit
    | KeyCode.down =>
      let len := activeLen s.app
      if s.app.selected_row < len - 1 then
        StepResult.next { s with app := { s.app with selected_row := s.app.selected_row + 1 } }
      else
        StepResult.next s
    | KeyCode.up =>
      if 0 < s.app.selected_row then
        StepResult.next { s with app := { s.app with selected_row := s.app.selected_row - 1 } }
      else
        StepResult.next s
    | KeyCode.left =>
      if s.app.selected_list = ListKind.Paired then
        StepResult.next { s with app := { s.app with selected_list := ListKind.Unpaired } }
      else
        StepResult.next s
    | KeyCode.right =>
      if s.app.selected_list = ListKind.Unpaired then
        StepResult.next { s with app := { s.app with selected_list := ListKind.Paired } }
      else
        StepResult.next s
    | KeyCode.charS =>
      if s.adapter then
        StepResult.next { s with
          app := { s.app with unpaired := [], paired := [] }
          abortedHandles := s.abortedHandles ++
            (match s.adapterEventsHandle with
             | some h => [h]
             | none => [])
          adapterEventsHandle := some s.nextHandle
          scannersStarted := s.scannersStarted ++ [s.nextHandle]
          nextHandle := s.nextHandle + 1 }
      else
        StepResult.next s
    | KeyCode.enter =>
      if s.adapter then
        match (activeMap s.app).get? s.app.selected_row with
        | none =>
          StepResult.fatal
            "Attempted to use item that doesn't exist in list. This should be impossible!"
        | some (addr, dev) =>
          if dev.loading.isSome then
            StepResult.next s
          else
            let newMap := (activeMap s.app).set s.app.selected_row
              (addr, { dev with loading := some 0 })
            let app1 := setActiveMap s.app newMap
            let process :=
              match s.app.selected_list with
              | ListKind.Paired => "connecting to " ++ dev.alias_
              | ListKind.Unpaired => "pairing with " ++ dev.alias_
            match resolveErr with
            | some msg =>
              StepResult.next { s with
                app := { app1 with error := some { message := msg, process := process } } }
            | none =>
              StepResult.next { s with
                app := app1
                workersStarted := s.workersStarted ++ [(addr, process)]
                spinners := IMap.insert s.spinners addr s.nextHandle
                nextHandle := s.nextHandle + 1 }
      else
        StepResult.next s
    | KeyCode.esc =>
      StepResult.next { s with app := { s.app with error := none } }
    | KeyCode.other => StepResult.next s

/-- One iteration of the `select!` loop of `run` in `logic.rs`. -/
def step (s : LoopState) (e : Ev) : StepResult :=
  match e with
  | Ev.spinnerTick addr => StepResult.next (tickStep s addr)
  | Ev.complete addr => StepResult.next (completeStep s addr)
  | Ev.errorMsg er => StepResult.next { s with app := { s.app with error := some er } }
  | Ev.addition addr fetch => StepResult.next (intakeStep s addr fetch)
  | Ev.propertyChanged addr p => StepResult.next (propStep s addr p)
  | Ev.adapterFetched err => adapterStep s err
  | Ev.key code resolveErr => keyStep s code resolveErr

/-- Run the loop over a list of events, stopping at the first quit or fatal
outcome. -/
def steps : LoopState → List Ev → StepResult
  | s, [] => StepResult.next s
  | s, e :: rest =>
    match step s e with
    | StepResult.next s' => steps s' rest
    | r => r

/-- The state after processing a list of events from the initial state, if
the loop is still running. -/
def stateAfter (evs : List Ev) : Option LoopState :=
  match steps initState evs with
  | StepResult.next s => some s
  | _ => none

/-- The state after one step from `s`, if the loop is still running. -/
def stepNext (s : LoopState) (e : Ev) : Option LoopState :=
  match step s e with
  | StepResult.next s' => some s'
  | _ => none

/-- Messages a pair/connect worker task sends back into the loop. -/
inductive Msg where
  | complete (addr : Nat)
  | err (e : Error)
deriving DecidableEq, Repr

/-- The body of the worker task spawned by the Enter arm (either the
`device.pair()` or the `device.connect()` variant): it first sends the
completion for its address, unconditionally, and only then sends an error
record when the operation failed (`res = some msg`). -/
def workerRun (addr : Nat) (process : String) (res : Option String) :
    List Msg :=
  [Msg.complete addr] ++
    (match res with
     | none => []
     | some m => [Msg.err { message := m, process := process }])

/-- `ui.rs`: `THROBBERS`, the four spinner animation frames. -/
def THROBBERS : List String := ["│", "╱", "─", "╲"]

/-- `ui.rs` line `THROBBERS[index % 4]`: the animation frame displayed for a
spinner counter. -/
def throbberFrame (index : Nat) : Option String :=
  THROBBERS.get? (index % 4)

/-- Whether the selection cursor is inside the active pane (or the pane is
empty and the cursor is at row 0), the precondition of the navigation
claim. -/
def rowInBounds (a : App) : Prop :=
  a.selected_row < activeLen a ∨ (activeLen a = 0 ∧ a.selected_row = 0)

/-! ### Concrete inputs used by counterexamples and witnesses -/

/-- A sample device record: just discovered, idle. -/
def devSpeaker : Device :=
  { alias_ := "Speaker", connected := false, loading := none }

/-- The loop state right after the adapter bootstrap delivered the adapter
and the first scanner (handle 0) was spawned, before any discovery. -/
def readyState : LoopState :=
  { initState with
      adapter := true
      adapterEventsHandle := some 0
      scannersStarted := [0]
      nextHandle := 1 }

/-- Event trace: adapter ready, address 1 discovered with fetched
`paired = false`, then re-emitted by the scanner with fetched
`paired = true`. -/
def reintakeEvents : List Ev :=
  [Ev.adapterFetched none,
   Ev.addition 1 (some { paired := false, connected := false, alias_ := "Speaker" }),
   Ev.addition 1 (some { paired := true, connected := false, alias_ := "Speaker" })]

/-- Event trace: adapter ready, address 1 discovered unpaired, then Enter
pressed on it (row 0 of the default Unpaired pane) while
`adapter.device(addr)` fails. -/
def failedResolveEvents : List Ev :=
  [Ev.adapterFetched none,
   Ev.addition 1 (some { paired := false, connected := false, alias_ := "Speaker" }),
   Ev.key KeyCode.enter (some "le-connection-abort-by-local")]

/-- Adapter ready; address 1 sits in `unpaired`. -/
def unpairedSpeakerState : LoopState :=
  { readyState with app := { initApp with unpaired := [(1, devSpeaker)] } }

/-- Adapter ready; address 1 sits in `paired`. -/
def pairedSpeakerState : LoopState :=
  { readyState with app := { initApp with paired := [(1, devSpeaker)] } }

/-- Adapter ready; address 1 sits in `paired` with an operation three ticks
old, and its spinner task (handle 7) is registered. -/
def spinningState : LoopState :=
  { readyState with
      app := { initApp with
        paired := [(1, { alias_ := "Speaker", connected := true, loading := some 3 })] }
      spinners := [(1, 7)]
      nextHandle := 8 }

/-- Adapter ready; address 1 sits in `unpaired` with an operation already
in flight (`loading = Some 0`). -/
def inFlightState : LoopState :=
  { readyState with
      app := { initApp with
        unpaired := [(1, { alias_ := "Speaker", connected := false, loading := some 0 })] } }

/-- Adapter ready; a recoverable error is on display. -/
def errorState : LoopState :=
  { unpairedSpeakerState with
      app := { unpairedSpeakerState.app with
        error := some { message := "connection refused", process := "connecting to Speaker" } } }

/-- Adapter ready; two unpaired devices (cursor on row 1) and one paired
device: pressing Right moves the cursor to a pane with fewer rows. -/
def twoPaneState : LoopState :=
  { readyState with
      app := { initApp with
        selected_list := ListKind.Unpaired
        selected_row := 1
        unpaired := [(1, devSpeaker), (2, devSpeaker)]
        paired := [(3, devSpeaker)] } }

namespace IMap

theorem find_andModify_self {α : Type} (m : IMap α) (k : Nat) (f : α → α) :
    find (andModify m k f) k = (find m k).map f := by
  induction m with
  | nil => rfl
  | cons p rest ih =>
    obtain ⟨k', v⟩ := p
    by_cases h : k' = k
    · simp [andModify, find, h]
    · simp [andModify, find, h, ih]

theorem find_andModify_ne {α : Type} (m : IMap α) (k k' : Nat) (f : α → α)
    (h : k' ≠ k) : find (andModify m k f) k' = find m k' := by
  induction m with
  | nil => rfl
  | cons p rest ih =>
    obtain ⟨a, v⟩ := p
    by_cases ha : a = k
    · subst ha
      simp [andModify, find, Ne.symm h]
    · by_cases hb : a = k'
      · simp [andModify, find, ha, hb, h]
      · simp [andModify, find, ha, hb, ih]

theorem andModify_of_not_contains {α : Type} (m : IMap α) (k : Nat)
    (f : α → α) (h : contains m k = false) : andModify m k f = m := by
  induction m with
  | nil => rfl
  | cons p rest ih =>
    obtain ⟨a, v⟩ := p
    by_cases ha : a = k
    · subst ha
      simp [contains, find] at h
    · simp [contains, find, ha] at h
      simp [andModify, ha, ih (by simp [contains, h])]

theorem find_insert_self {α : Type} (m : IMap α) (k : Nat) (v : α) :
    find (insert m k v) k = some v := by
  induction m with
  | nil => simp [insert, find]
  | cons p rest ih =>
    obtain ⟨a, w⟩ := p
    by_cases ha : a = k
    · simp [insert, find, ha]
    · simp [insert, find, ha, ih]

theorem find_insert_ne {α : Type} (m : IMap α) (k k' : Nat) (v : α)
    (h : k' ≠ k) : find (insert m k v) k' = find m k' := by
  induction m with
  | nil => simp [insert, find, Ne.symm h]
  | cons p rest ih =>
    obtain ⟨a, w⟩ := p
    by_cases ha : a = k
    · subst ha
      simp [insert, find, Ne.symm h]
    · by_cases hb : a = k'
      · simp [insert, find, ha, hb, h]
      · simp [insert, find, ha, hb, ih]

theorem find_remove_self {α : Type} (m : IMap α) (k : Nat) :
    find (remove m k) k = none := by
  induction m with
  | nil => rfl
  | cons p rest ih =>
    obtain ⟨a, v⟩ := p
    by_cases ha : a = k
    · simp [remove, ha, ih]
    · simp [remove, find, ha, ih]

theorem find_remove_ne {α : Type} (m : IMap α) (k k' : Nat) (h : k' ≠ k) :
    find (remove m k) k' = find m k' := by
  induction m with
  | nil => rfl
  | cons p rest ih =>
    obtain ⟨a, v⟩ := p
    by_cases ha : a = k
    · subst ha
      simp [remove, find, Ne.symm h, ih]
    · simp [remove, find, ha, ih]

theorem contains_eq_true_iff {α : Type} (m : IMap α) (k : Nat) :
    contains m k = true ↔ (find m k).isSome := by
  simp [contains]

end IMap

theorem lookupDevice_updateDevice_self (a : App) (addr : Nat)
    (f : Device → Device) :
    lookupDevice (updateDevice a addr f) addr = (lookupDevice a addr).map f := by
  by_cases h : IMap.contains a.paired addr = true
  · obtain ⟨v, hv⟩ :=
      Option.isSome_iff_exists.mp ((IMap.contains_eq_true_iff _ _).mp h)
    simp [lookupDevice, updateDevice, h, IMap.find_andModify_self, hv, Option.orElse]
  · have hnone : IMap.find a.paired addr = none := by
      rcases hfind : IMap.find a.paired addr with _ | v
      · rfl
      · simp [IMap.contains, hfind] at h
    simp [lookupDevice, updateDevice, h, IMap.find_andModify_self, hnone, Option.orElse]

theorem updateDevice_error (a : App) (addr : Nat) (f : Device → Device) :
    (updateDevice a addr f).error = a.error := by
  unfold updateDevice
  split <;> rfl

theorem updateDevice_selected_row (a : App) (addr : Nat) (f : Device → Device) :
    (updateDevice a addr f).selected_row = a.selected_row := by
  unfold updateDevice
  split <;> rfl

theorem updateDevice_selected_list (a : App) (addr : Nat) (f : Device → Device) :
    (updateDevice a addr f).selected_list = a.selected_list := by
  unfold updateDevice
  split <;> rfl

theorem activeMap_length (a : App) : (activeMap a).length = activeLen a := by
  cases h : a.selected_list <;> simp [activeMap, activeLen, h]

theorem rowInBounds_with_row (a : App) (r : Nat) :
    rowInBounds { a with selected_row := r } ↔
      (r < activeLen a ∨ (activeLen a = 0 ∧ r = 0)) :=
  Iff.rfl

theorem lookupDevice_isSome_of_present (a : App) (addr : Nat)
    (h : (IMap.find a.paired addr).isSome ∨ (IMap.find a.unpaired addr).isSome) :
    (lookupDevice a addr).isSome := by
  rcases h with h | h
  · obtain ⟨v, hv⟩ := Option.isSome_iff_exists.mp h
    simp [lookupDevice, hv, Option.orElse]
  · rcases hfind : IMap.find a.paired addr with _ | v
    · simpa [lookupDevice, hfind, Option.orElse] using h
    · simp [lookupDevice, hfind, Option.orElse]

/-- C1: the claimed disjointness invariant of `unpaired` and `paired` fails
on the code.  When the scanner re-emits address 1 — currently in `unpaired`
— and intake fetches `is_paired() = true`, the `rx_additions` arm of `run`
(`logic.rs` lines 113–122) inserts the record into `paired` without
removing it from `unpaired`, so after `reintakeEvents` the address is
present in both maps at once. -/
theorem reintake_breaks_bucket_disjointness :
    (stateAfter reintakeEvents).map
      (fun s => (IMap.contains s.app.unpaired 1, IMap.contains s.app.paired 1)) =
    some (true, true) := rfl

/-- C3: the claimed spinner-table equivalence (`spinners` has an entry for
`a` iff the record's `loading` is `Some`) fails on the code.  On Enter, the
`run` loop (`logic.rs` lines 214–240) sets `loading = Some(0)` before
resolving the device handle; when `adapter.device(addr)` fails it surfaces
the error and `continue`s, leaving `loading = Some(0)` with no spinner entry
and no worker spawned, so the device is stuck loading forever. -/
theorem failed_resolution_leaves_loading_without_spinner :
    (stateAfter failedResolveEvents).map
      (fun s =>
        ((IMap.find s.app.unpaired 1).map Device.loading,
         IMap.find s.spinners 1,
         s.workersStarted.length,
         s.app.error.isSome)) =
    some (some (some 0), none, 0, true) := rfl

/-- C2 counterexample: with address 1 held by `unpaired` (alias
"Speaker"), an alias-changed event carrying "JBL" leaves the record's alias
at "Speaker" — the `DeviceProperty::Alias` arm (`logic.rs` line 127) writes
through `app.paired.entry(addr)` only, so the mapping that actually holds
the address is not updated, contrary to the claim. -/
theorem alias_change_ignores_unpaired_holder :
    ((stepNext unpairedSpeakerState
        (Ev.propertyChanged 1 (DeviceProperty.Alias "JBL"))).map
      (fun s => (IMap.find s.app.unpaired 1).map Device.alias_) =
      some (some "Speaker")) ∧
    "Speaker" ≠ "JBL" := ⟨rfl, by decide⟩

/-- C2 (amended): an alias-changed property event for address `a` updates
the alias of the record in the `paired` mapping only, leaves every other
`paired` entry and the rest of the state untouched, and is a no-op on the
whole state whenever `a` is absent from `paired` — even when `a` is held by
`unpaired`. -/
theorem alias_change_updates_paired_only
    (s : LoopState) (addr : Nat) (al : String) :
    ∃ s', step s (Ev.propertyChanged addr (DeviceProperty.Alias al)) =
        StepResult.next s' ∧
      s'.app.unpaired = s.app.unpaired ∧
      s'.app.selected_list = s.app.selected_list ∧
      s'.app.selected_row = s.app.selected_row ∧
      s'.app.error = s.app.error ∧
      s'.spinners = s.spinners ∧
      IMap.find s'.app.paired addr =
        (IMap.find s.app.paired addr).map (fun d => { d with alias_ := al }) ∧
      (∀ b, b ≠ addr → IMap.find s'.app.paired b = IMap.find s.app.paired b) ∧
      (IMap.contains s.app.paired addr = false → s' = s) := by
  refine ⟨_, rfl, rfl, rfl, rfl, rfl, rfl, ?_, ?_, ?_⟩
  · exact IMap.find_andModify_self _ _ _
  · intro b hb
    exact IMap.find_andModify_ne _ _ _ _ hb
  · intro hc
    simp [step, propStep, IMap.andModify_of_not_contains _ _ _ hc]

/-- C2 witness: the amended theorem applied at a concrete state holding
address 1 in `paired`. -/
theorem alias_change_updates_paired_only_witness :
    ∃ s', step pairedSpeakerState
        (Ev.propertyChanged 1 (DeviceProperty.Alias "JBL")) =
        StepResult.next s' ∧
      s'.app.unpaired = pairedSpeakerState.app.unpaired ∧
      s'.app.selected_list = pairedSpeakerState.app.selected_list ∧
      s'.app.selected_row = pairedSpeakerState.app.selected_row ∧
      s'.app.error = pairedSpeakerState.app.error ∧
      s'.spinners = pairedSpeakerState.spinners ∧
      IMap.find s'.app.paired 1 =
        (IMap.find pairedSpeakerState.app.paired 1).map
          (fun d => { d with alias_ := "JBL" }) ∧
      (∀ b, b ≠ 1 → IMap.find s'.app.paired b =
        IMap.find pairedSpeakerState.app.paired b) ∧
      (IMap.contains pairedSpeakerState.app.paired 1 = false →
        s' = pairedSpeakerState) :=
  alias_change_updates_paired_only pairedSpeakerState 1 "JBL"

/-- C4: with an adapter available and no error displayed, the rescan key
(`s`) clears both the `unpaired` and the `paired` mapping, aborts the
current scanner task's handle, and spawns a fresh scanner (`logic.rs` lines
195–205), so both panes can repopulate only from newly emitted discovery
events. -/
theorem rescan_clears_both_maps_and_restarts_scanner
    (s : LoopState) (h : Nat) (re : Option String)
    (hAdapter : s.adapter = true) (hErr : s.app.error = none)
    (hHandle : s.adapterEventsHandle = some h) :
    ∃ s', step s (Ev.key KeyCode.charS re) = StepResult.next s' ∧
      s'.app.unpaired = [] ∧
      s'.app.paired = [] ∧
      s'.abortedHandles = s.abortedHandles ++ [h] ∧
      s'.adapterEventsHandle = some s.nextHandle ∧
      s'.scannersStarted = s.scannersStarted ++ [s.nextHandle] ∧
      s'.app.error = none ∧
      s'.spinners = s.spinners := by
  refine ⟨{ s with
      app := { s.app with unpaired := [], paired := [] }
      abortedHandles := s.abortedHandles ++ [h]
      adapterEventsHandle := some s.nextHandle
      scannersStarted := s.scannersStarted ++ [s.nextHandle]
      nextHandle := s.nextHandle + 1 }, ?_, rfl, rfl, rfl, rfl, rfl, ?_, rfl⟩
  · simp [step, keyStep, hErr, hAdapter, hHandle]
  · exact hErr

/-- C4 witness: rescanning from a populated ready state. -/
theorem rescan_witness :
    ∃ s', step unpairedSpeakerState (Ev.key KeyCode.charS none) =
        StepResult.next s' ∧
      s'.app.unpaired = [] ∧
      s'.app.paired = [] ∧
      s'.abortedHandles = unpairedSpeakerState.abortedHandles ++ [0] ∧
      s'.adapterEventsHandle = some unpairedSpeakerState.nextHandle ∧
      s'.scannersStarted =
        unpairedSpeakerState.scannersStarted ++ [unpairedSpeakerState.nextHandle] ∧
      s'.app.error = none ∧
      s'.spinners = unpairedSpeakerState.spinners :=
  rescan_clears_both_maps_and_restarts_scanner unpairedSpeakerState 0 none
    rfl rfl rfl

/-- C5 counterexample: a spinner tick for a device with
`in_flight_operation = Some 3` stores `Some 4` — the `rx_spinner_tick` arm
(`logic.rs` line 59) performs `index.wrapping_add(1)` on the `usize`
counter, not a mod-4 step, so the stored value is not `(3 + 1) % 4 = 0`. -/
theorem tick_does_not_reduce_mod_four :
    ((stepNext spinningState (Ev.spinnerTick 1)).map
      (fun s => (IMap.find s.app.paired 1).map Device.loading) =
      some (some (some 4))) ∧
    some (4 : Nat) ≠ some ((3 + 1) % 4) := ⟨rfl, by decide⟩

/-- C5 (amended): a spinner tick for an address whose record has
`in_flight_operation = Some n` sets the counter to `(n + 1) % 2 ^ 64`
(`usize` wrapping add); the mod-4 reduction happens only at render time,
where the displayed throbber frame of the new counter equals that of
`n + 1`.  A tick for a record with `None`, or for an address in neither
mapping, leaves the whole state unchanged. -/
theorem tick_advances_counter_with_usize_wrap
    (s : LoopState) (addr : Nat) (n : Nat) :
    ((∃ d, lookupDevice s.app addr = some d ∧ d.loading = some n) →
      ∃ s', step s (Ev.spinnerTick addr) = StepResult.next s' ∧
        (lookupDevice s'.app addr).map Device.loading =
          some (some ((n + 1) % usizeMod)) ∧
        s'.spinners = s.spinners ∧
        s'.app.error = s.app.error ∧
        s'.app.selected_row = s.app.selected_row ∧
        throbberFrame ((n + 1) % usizeMod) = throbberFrame (n + 1)) ∧
    ((∃ d, lookupDevice s.app addr = some d ∧ d.loading = none) →
      step s (Ev.spinnerTick addr) = StepResult.next s) ∧
    (lookupDevice s.app addr = none →
      step s (Ev.spinnerTick addr) = StepResult.next s) := by
  refine ⟨?_, ?_, ?_⟩
  · rintro ⟨d, hd, hl⟩
    have hstep : step s (Ev.spinnerTick addr) =
        StepResult.next { s with app := (updateDevice s.app addr (fun d => { d with loading := some ((n + 1) % usizeMod) })) } := by
      simp [step, tickStep, hd, hl]
    refine ⟨_, hstep, ?_, rfl,
      updateDevice_error _ _ _, updateDevice_selected_row _ _ _, ?_⟩
    · simp [lookupDevice_updateDevice_self, hd]
    · have hmod : ((n + 1) % usizeMod) % 4 = (n + 1) % 4 :=
        Nat.mod_mod_of_dvd _ (by norm_num [usizeMod])
      simp [throbberFrame, hmod]
  · rintro ⟨d, hd, hl⟩
    simp [step, tickStep, hd, hl]
  · intro h
    simp [step, tickStep, h]

/-- C5 witness: the amended theorem applied at the concrete spinning state
(counter 3), with its presence hypothesis discharged. -/
theorem tick_advances_counter_witness :
    ∃ s', step spinningState (Ev.spinnerTick 1) = StepResult.next s' ∧
      (lookupDevice s'.app 1).map Device.loading =
        some (some ((3 + 1) % usizeMod)) ∧
      s'.spinners = spinningState.spinners ∧
      s'.app.error = spinningState.app.error ∧
      s'.app.selected_row = spinningState.app.selected_row ∧
      throbberFrame ((3 + 1) % usizeMod) = throbberFrame (3 + 1) :=
  (tick_advances_counter_with_usize_wrap spinningState 1 3).1
    ⟨{ alias_ := "Speaker", connected := true, loading := some 3 }, rfl, rfl⟩

/-- C6: a completion event for an address present in either mapping always
clears that record's `in_flight_operation` to `None` and removes-and-aborts
its spinner entry (`logic.rs` lines 61–68), regardless of the operation's
outcome; and the worker task body (`logic.rs` lines 246–276) sends the
completion for its address first, before any error message — its message
list starts with the completion whether the pair/connect result `res` is a
success (`none`) or a failure (`some msg`). -/
theorem completion_clears_flag_and_cancels_spinner
    (s : LoopState) (addr : Nat) (pr : String) (res : Option String)
    (hPresent : (IMap.find s.app.paired addr).isSome ∨
      (IMap.find s.app.unpaired addr).isSome) :
    ∃ s', step s (Ev.complete addr) = StepResult.next s' ∧
      (lookupDevice s'.app addr).map Device.loading = some none ∧
      IMap.find s'.spinners addr = none ∧
      (∀ h, IMap.find s.spinners addr = some h → h ∈ s'.abortedHandles) ∧
      (workerRun addr pr res).head? = some (Msg.complete addr) := by
  obtain ⟨d, hd⟩ := Option.isSome_iff_exists.mp
    (lookupDevice_isSome_of_present s.app addr hPresent)
  have hstep : step s (Ev.complete addr) =
      StepResult.next { s with
        app := (updateDevice s.app addr (fun d => { d with loading := none }))
        spinners := IMap.remove s.spinners addr
        abortedHandles := (match IMap.find s.spinners addr with | some h => s.abortedHandles ++ [h] | none => s.abortedHandles) } := by
    simp [step, completeStep, hd]
  refine ⟨_, hstep, ?_, ?_, ?_, rfl⟩
  · simp [lookupDevice_updateDevice_self, hd]
  · exact IMap.find_remove_self _ _
  · intro h hh
    simp [hh]

/-- C6 witness: completing the in-flight operation of the concrete spinning
state (spinner handle 7) after a failed connect. -/
theorem completion_clears_flag_witness :
    ∃ s', step spinningState (Ev.complete 1) = StepResult.next s' ∧
      (lookupDevice s'.app 1).map Device.loading = some none ∧
      IMap.find s'.spinners 1 = none ∧
      (∀ h, IMap.find spinningState.spinners 1 = some h →
        h ∈ s'.abortedHandles) ∧
      (workerRun 1 "connecting to Speaker"
        (some "connection refused")).head? = some (Msg.complete 1) :=
  completion_clears_flag_and_cancels_spinner spinningState 1
    "connecting to Speaker" (some "connection refused") (Or.inl rfl)

/-- C7: pressing Enter while the selected device already has
`in_flight_operation = Some` returns the state completely unchanged — the
Enter arm (`logic.rs` lines 206–224) hits `if loading.is_some() { continue }`
before any mutation or spawn, so no field changes and no worker or spinner
task is created. -/
theorem activate_with_operation_in_flight_is_noop
    (s : LoopState) (re : Option String) (addr : Nat) (dev : Device) (n : Nat)
    (hErr : s.app.error = none) (hAd : s.adapter = true)
    (hGet : (activeMap s.app).get? s.app.selected_row = some (addr, dev))
    (hLoad : dev.loading = some n) :
    step s (Ev.key KeyCode.enter re) = StepResult.next s := by
  have hGet' : (activeMap s.app)[s.app.selected_row]? = some (addr, dev) := by
    simpa [List.get?_eq_getElem?] using hGet
  simp [step, keyStep, hErr, hAd, hGet', hLoad]

/-- C7 witness: Enter on the concrete in-flight device is the identity
step. -/
theorem activate_in_flight_noop_witness :
    step inFlightState (Ev.key KeyCode.enter none) =
      StepResult.next inFlightState :=
  activate_with_operation_in_flight_is_noop inFlightState none 1
    { alias_ := "Speaker", connected := false, loading := some 0 } 0
    rfl rfl rfl rfl

/-- C8: while the error slot is `Some`, the key arm of `run`
(`logic.rs` lines 160–165) handles only Esc: every other key — the quit key
included — leaves the state unchanged and keeps the loop running, and Esc
clears the error slot while touching nothing else. -/
theorem error_modal_blocks_all_keys_except_esc
    (s : LoopState) (e : Error) (re : Option String)
    (hErr : s.app.error = some e) :
    (∀ c, c ≠ KeyCode.esc → step s (Ev.key c re) = StepResult.next s) ∧
    (∃ s', step s (Ev.key KeyCode.esc re) = StepResult.next s' ∧
      s'.app.error = none ∧
      s'.app.unpaired = s.app.unpaired ∧
      s'.app.paired = s.app.paired ∧
      s'.app.selected_row = s.app.selected_row ∧
      s'.app.selected_list = s.app.selected_list ∧
      s'.spinners = s.spinners) := by
  constructor
  · intro c hc
    simp [step, keyStep, hErr, hc]
  · exact ⟨{ s with app := { s.app with error := none } },
      by simp [step, keyStep, hErr], rfl, rfl, rfl, rfl, rfl, rfl⟩

/-- C8 witness: with the concrete displayed error, the quit key is inert
and Esc dismisses. -/
theorem error_modal_witness :
    (∀ c, c ≠ KeyCode.esc →
      step errorState (Ev.key c none) = StepResult.next errorState) ∧
    (∃ s', step errorState (Ev.key KeyCode.esc none) = StepResult.next s' ∧
      s'.app.error = none ∧
      s'.app.unpaired = errorState.app.unpaired ∧
      s'.app.paired = errorState.app.paired ∧
      s'.app.selected_row = errorState.app.selected_row ∧
      s'.app.selected_list = errorState.app.selected_list ∧
      s'.spinners = errorState.spinners) :=
  error_modal_blocks_all_keys_except_esc errorState
    { message := "connection refused", process := "connecting to Speaker" }
    none rfl

/-- C9 counterexample: from a state whose cursor is in bounds (row 1 of the
two-entry `unpaired` pane), pressing Right switches to the one-entry
`paired` pane while leaving `selected_row = 1` — the Left/Right arms
(`logic.rs` lines 185–194) never clamp the row, so afterwards
`selected_row` exceeds `len(active list) − 1 = 0`, contrary to the claim
that every navigation key keeps the row within the active list's bounds. -/
theorem list_switch_escapes_row_bound :
    ((stepNext twoPaneState (Ev.key KeyCode.right none)).map
      (fun s' => (activeLen s'.app, s'.app.selected_row)) = some (1, 1)) ∧
    rowInBounds twoPaneState.app ∧
    ¬ ((1 : Nat) ≤ 1 - 1) :=
  ⟨rfl, Or.inl (by decide), by decide⟩

/-- C9 (amended): from a state with the cursor in bounds of the active list
(or at row 0 of an empty list), Down and Up keep it so: Down increments
`selected_row` only when it is below `len(active) − 1`, Up decrements only
when it is above 0, and neither changes the active list.  Left and Right
switch the active list without modifying `selected_row`, so after a switch
the row may lie outside the newly active list's bounds. -/
theorem vertical_nav_clamps_horizontal_keeps_row
    (s : LoopState) (re : Option String)
    (hErr : s.app.error = none) (hB : rowInBounds s.app) :
    (∃ s', step s (Ev.key KeyCode.down re) = StepResult.next s' ∧
      rowInBounds s'.app ∧
      s'.app.selected_list = s.app.selected_list ∧
      s'.app.selected_row =
        (if s.app.selected_row < activeLen s.app - 1 then
          s.app.selected_row + 1 else s.app.selected_row)) ∧
    (∃ s', step s (Ev.key KeyCode.up re) = StepResult.next s' ∧
      rowInBounds s'.app ∧
      s'.app.selected_list = s.app.selected_list ∧
      s'.app.selected_row =
        (if 0 < s.app.selected_row then
          s.app.selected_row - 1 else s.app.selected_row)) ∧
    (∃ s', step s (Ev.key KeyCode.left re) = StepResult.next s' ∧
      s'.app.selected_row = s.app.selected_row) ∧
    (∃ s', step s (Ev.key KeyCode.right re) = StepResult.next s' ∧
      s'.app.selected_row = s.app.selected_row) := by
  refine ⟨?_, ?_, ?_, ?_⟩
  · by_cases hlt : s.app.selected_row < activeLen s.app - 1
    · refine ⟨{ s with app := { s.app with selected_row := s.app.selected_row + 1 } },
        by simp [step, keyStep, hErr, hlt], ?_, rfl, by simp [hlt]⟩
      unfold rowInBounds at hB
      exact (rowInBounds_with_row s.app _).mpr (by omega)
    · exact ⟨s, by simp [step, keyStep, hErr, hlt], hB, rfl, by simp [hlt]⟩
  · by_cases hpos : 0 < s.app.selected_row
    · refine ⟨{ s with app := { s.app with selected_row := s.app.selected_row - 1 } },
        by simp [step, keyStep, hErr, hpos], ?_, rfl, by simp [hpos]⟩
      unfold rowInBounds at hB
      exact (rowInBounds_with_row s.app _).mpr (by omega)
    · exact ⟨s, by simp [step, keyStep, hErr, hpos], hB, rfl, by simp [hpos]⟩
  · by_cases hsl : s.app.selected_list = ListKind.Paired
    · exact ⟨{ s with app := { s.app with selected_list := ListKind.Unpaired } },
        by simp [step, keyStep, hErr, hsl], rfl⟩
    · exact ⟨s, by simp [step, keyStep, hErr, hsl], rfl⟩
  · by_cases hsl : s.app.selected_list = ListKind.Unpaired
    · exact ⟨{ s with app := { s.app with selected_list := ListKind.Paired } },
        by simp [step, keyStep, hErr, hsl], rfl⟩
    · exact ⟨s, by simp [step, keyStep, hErr, hsl], rfl⟩

/-- C9 witness: the amended theorem applied at the concrete two-pane
state. -/
theorem vertical_nav_clamps_witness :
    (∃ s', step twoPaneState (Ev.key KeyCode.down none) = StepResult.next s' ∧
      rowInBounds s'.app ∧
      s'.app.selected_list = twoPaneState.app.selected_list ∧
      s'.app.selected_row =
        (if twoPaneState.app.selected_row < activeLen twoPaneState.app - 1 then
          twoPaneState.app.selected_row + 1 else twoPaneState.app.selected_row)) ∧
    (∃ s', step twoPaneState (Ev.key KeyCode.up none) = StepResult.next s' ∧
      rowInBounds s'.app ∧
      s'.app.selected_list = twoPaneState.app.selected_list ∧
      s'.app.selected_row =
        (if 0 < twoPaneState.app.selected_row then
          twoPaneState.app.selected_row - 1 else twoPaneState.app.selected_row)) ∧
    (∃ s', step twoPaneState (Ev.key KeyCode.left none) = StepResult.next s' ∧
      s'.app.selected_row = twoPaneState.app.selected_row) ∧
    (∃ s', step twoPaneState (Ev.key KeyCode.right none) = StepResult.next s' ∧
      s'.app.selected_row = twoPaneState.app.selected_row) :=
  vertical_nav_clamps_horizontal_keeps_row twoPaneState none rfl
    (Or.inl (by decide))

/-- C10: with an adapter available and no error displayed, pressing Enter
while `selected_row` is at or past the active list's length (in particular
while the list is empty, e.g. right after a rescan cleared the mappings
without resetting the cursor) makes the Enter arm's
`get_index_mut(..).ok_or(eyre!(..))?` (`logic.rs` lines 214–219) return
an error from `run`, terminating the program fatally instead of ignoring
the keypress. -/
theorem activate_out_of_bounds_is_fatal
    (s : LoopState) (re : Option String)
    (hAd : s.adapter = true) (hErr : s.app.error = none)
    (hLen : activeLen s.app ≤ s.app.selected_row) :
    step s (Ev.key KeyCode.enter re) =
      StepResult.fatal
        "Attempted to use item that doesn't exist in list. This should be impossible!" := by
  have hGet : (activeMap s.app)[s.app.selected_row]? = none := by
    apply List.getElem?_eq_none
    rw [activeMap_length]
    exact hLen
  simp [step, keyStep, hErr, hAd, hGet]

/-- C10 witness: Enter on the empty just-bootstrapped state is fatal. -/
theorem activate_out_of_bounds_witness :
    step readyState (Ev.key KeyCode.enter none) =
      StepResult.fatal
        "Attempted to use item that doesn't exist in list. This should be impossible!" :=
  activate_out_of_bounds_is_fatal readyState none rfl rfl (by decide)

end Bluey
